import Mathlib

/-!
Shallow embedding of the snapshot persistence core of a microVM monitor
(`src/vmm/src/persist.rs`), together with theorems settling the claims of the
natural-language specification against it.

Pure control flow is translated function by function; file-system and
virtualization effects are made explicit: outcomes of fallible host calls are
parameters of the embedded functions, and the sequence of file operations a
function performs is returned as an explicit event trace.  Machine integers
are modelled as `Nat` (no arithmetic in the translated code overflows on the
values of interest).  Components of the repository that are referenced by
`persist.rs` but whose sources are not part of the extract (the `arch`
constants, the product-version table, the `snapshot` framing crate, the
`versionize` encoders and the cpuid helpers) are modelled from the
specification; each such definition is marked `Modelled from the spec:` in its
doc comment.
-/

namespace Persist

/-- Modelled from the spec: `arch::IRQ_BASE` (the `arch` crate is not under
src/), the architectural first usable IRQ number on x86_64. -/
def IRQ_BASE : Nat := 5

/-- `FC_V0_23_SNAP_VERSION` from persist.rs: the snapshot data version of the
first snapshot format ("0.23"). -/
def FC_V0_23_SNAP_VERSION : Nat := 1

/-- `FC_V0_23_IRQ_NUMBER` from persist.rs. -/
def FC_V0_23_IRQ_NUMBER : Nat := 16

/-- `FC_V0_23_MAX_DEVICES = FC_V0_23_IRQ_NUMBER - IRQ_BASE` from persist.rs. -/
def FC_V0_23_MAX_DEVICES : Nat := FC_V0_23_IRQ_NUMBER - IRQ_BASE

/-- `VmInfo` from persist.rs: scalar metadata of the VM. -/
structure VmInfo where
  mem_size_mib : Nat
deriving DecidableEq, Repr

/-- One region record of a `GuestMemoryState`: how a guest physical range maps
onto the memory backing file.  Modelled from the spec: the `memory_snapshot`
module is not under src/. -/
structure GuestMemoryRegionState where
  base_address : Nat
  size : Nat
  offset : Nat
deriving DecidableEq, Repr

/-- `GuestMemoryState`: the memory descriptor, an ordered sequence of region
records.  Modelled from the spec: the `memory_snapshot` module is not under
src/. -/
structure GuestMemoryState where
  regions : List GuestMemoryRegionState
deriving DecidableEq, Repr

/-- One CPUID leaf of a vcpu's CPUID view.  Modelled from the spec: the vcpu
state lives in `vstate`, not under src/. -/
structure CpuidEntry where
  function : Nat
  eax : Nat
  ebx : Nat
  ecx : Nat
  edx : Nat
deriving DecidableEq, Repr

/-- `VcpuState`: per-vcpu state; the core reads only its CPUID view, the
register snapshot is kept as an opaque blob.  Modelled from the spec: `vstate`
is not under src/. -/
structure VcpuState where
  cpuid : List CpuidEntry
  regs : List Nat
deriving DecidableEq, Repr

/-- `VmState`: VM-wide hardware state, opaque to the core; modelled as a blob.
Modelled from the spec: `vstate` is not under src/. -/
def VmState := List Nat
deriving DecidableEq, Repr

/-- `DeviceStates` from `device_manager::persist` (not under src/), modelled
from the spec and the fields used by persist.rs tests: block devices and net
devices are sequences of opaque state blobs, vsock and balloon are optional
blobs; the balloon field is the one whose presence requires DeviceStates
schema version 2. -/
structure DeviceStates where
  block_devices : List (List Nat)
  net_devices : List (List Nat)
  vsock_device : Option (List Nat)
  balloon_device : Option (List Nat)
deriving DecidableEq, Repr

/-- `MicrovmState` from persist.rs: the aggregate root, field for field. -/
structure MicrovmState where
  vm_info : VmInfo
  memory_state : GuestMemoryState
  vm_state : VmState
  vcpu_states : List VcpuState
  device_states : DeviceStates
deriving DecidableEq, Repr

/-- An `io::Error`, identified opaquely by its os error number. -/
def IoError := Nat
deriving DecidableEq, Repr

/-- A `memory_snapshot::Error`, opaquely. -/
def MemError := Nat
deriving DecidableEq, Repr

/-- A `snapshot::Error` of the framing crate.  Modelled from the spec: the
`snapshot` crate is not under src/. -/
inductive SnapshotCrateError where
  | InvalidMagic (found : Nat)
  | InvalidDataVersion (v : Nat)
  | IoFail (code : Nat)
  | Versionize
deriving DecidableEq, Repr

/-- `MicrovmStateError` from persist.rs; inner collaborator errors are opaque
numbers or strings. -/
inductive MicrovmStateError where
  | InvalidInput
  | NotAllowed (msg : String)
  | RestoreDevices (err : Nat)
  | RestoreVcpuState (err : Nat)
  | RestoreVmState (err : Nat)
  | SaveVcpuState (err : Nat)
  | SaveVmState (err : Nat)
  | SignalVcpu (err : Nat)
  | UnexpectedVcpuResponse
deriving DecidableEq, Repr

/-- `CreateSnapshotError` from persist.rs, variant for variant. -/
inductive CreateSnapshotError where
  | DirtyBitmap
  | InvalidVersion
  | InvalidVmState (err : Nat)
  | Memory (err : MemError)
  | MemoryBackingFile (err : IoError)
  | MicrovmState (err : MicrovmStateError)
  | SerializeMicrovmState (err : SnapshotCrateError)
  | SnapshotBackingFile (err : IoError)
  | TooManyDevices (n : Nat)
deriving DecidableEq, Repr

/-- `LoadSnapshotError` from persist.rs, variant for variant. -/
inductive LoadSnapshotError where
  | BuildMicroVm (err : Nat)
  | DeserializeMemory (err : MemError)
  | DeserializeMicrovmState (err : SnapshotCrateError)
  | MemoryBackingFile (err : IoError)
  | ResumeMicroVm (err : Nat)
  | SnapshotBackingFile (err : IoError)
  | SnapshotBackingFileMetadata (err : IoError)
  | CpuVendorMismatch (details : String)
deriving DecidableEq, Repr

/-- The per-type schema versions tracked by the version map; only
`DeviceStates` is ever redeclared in this core. -/
inductive SnapTypeId where
  | deviceStates
deriving DecidableEq, Repr

/-- Modelled from the spec: the `versionize::VersionMap` (not under src/).
`latest_version` is the highest data version of the chain; `type_version d t`
is the schema version type `t` uses when encoding at data version `d`
(defaulting to 1 when never redeclared). -/
structure VersionMap where
  latest_version : Nat
  type_version : Nat → SnapTypeId → Nat

/-! ## Token-stream codec

Modelled from the spec: the `versionize` encoders (not under src/).  The spec
treats each type's payload layout as opaque; the model encodes into a stream
of `Nat` tokens, scalars as one token, sequences and options with a leading
count token. -/

/-- Encode one scalar. -/
def encNat (n : Nat) : List Nat := [n]

/-- Decode one scalar off the front of the stream. -/
def decNat : List Nat → Option (Nat × List Nat)
  | [] => none
  | n :: rest => some (n, rest)

/-- Encode a sequence: count token, then each element's encoding. -/
def encListWith {α : Type} (enc : α → List Nat) (xs : List α) : List Nat :=
  xs.length :: xs.foldr (fun a acc => enc a ++ acc) []

/-- Decode exactly `k` elements off the front of the stream. -/
def decCount {α : Type} (dec : List Nat → Option (α × List Nat)) :
    Nat → List Nat → Option (List α × List Nat)
  | 0, s => some ([], s)
  | k + 1, s =>
    match dec s with
    | none => none
    | some (a, s1) =>
      match decCount dec k s1 with
      | none => none
      | some (as, s2) => some (a :: as, s2)

/-- Decode a sequence: read the count token, then that many elements. -/
def decListWith {α : Type} (dec : List Nat → Option (α × List Nat)) :
    List Nat → Option (List α × List Nat)
  | [] => none
  | n :: rest => decCount dec n rest

/-- Encode an optional value: presence token, then the encoding when present. -/
def encOptWith {α : Type} (enc : α → List Nat) : Option α → List Nat
  | none => [0]
  | some a => 1 :: enc a

/-- Decode an optional value. -/
def decOptWith {α : Type} (dec : List Nat → Option (α × List Nat)) :
    List Nat → Option (Option α × List Nat)
  | [] => none
  | n :: rest =>
    if n = 0 then some (none, rest)
    else
      match dec rest with
      | none => none
      | some (a, s) => some (some a, s)

/-- Encode an opaque blob (a list of scalar tokens). -/
def encBlob (b : List Nat) : List Nat := encListWith encNat b

/-- Decode an opaque blob. -/
def decBlob : List Nat → Option (List Nat × List Nat) := decListWith decNat

/-- Encode a `VmInfo` (its one scalar field). -/
def encVmInfo (v : VmInfo) : List Nat := encNat v.mem_size_mib

/-- Decode a `VmInfo`. -/
def decVmInfo (s : List Nat) : Option (VmInfo × List Nat) :=
  match decNat s with
  | none => none
  | some (n, rest) => some (⟨n⟩, rest)

/-- Encode one memory region record, field by field. -/
def encRegion (r : GuestMemoryRegionState) : List Nat :=
  encNat r.base_address ++ encNat r.size ++ encNat r.offset

/-- Decode one memory region record. -/
def decRegion (s : List Nat) : Option (GuestMemoryRegionState × List Nat) :=
  match decNat s with
  | none => none
  | some (b, s1) =>
    match decNat s1 with
    | none => none
    | some (z, s2) =>
      match decNat s2 with
      | none => none
      | some (o, s3) => some (⟨b, z, o⟩, s3)

/-- Encode a `GuestMemoryState` as its region sequence. -/
def encGuestMemoryState (m : GuestMemoryState) : List Nat :=
  encListWith encRegion m.regions

/-- Decode a `GuestMemoryState`. -/
def decGuestMemoryState (s : List Nat) : Option (GuestMemoryState × List Nat) :=
  match decListWith decRegion s with
  | none => none
  | some (rs, rest) => some (⟨rs⟩, rest)

/-- Encode one CPUID leaf, field by field. -/
def encCpuidEntry (e : CpuidEntry) : List Nat :=
  encNat e.function ++ encNat e.eax ++ encNat e.ebx ++ encNat e.ecx ++ encNat e.edx

/-- Decode one CPUID leaf. -/
def decCpuidEntry (s : List Nat) : Option (CpuidEntry × List Nat) :=
  match s with
  | f :: a :: b :: c :: d :: rest => some (⟨f, a, b, c, d⟩, rest)
  | _ => none

/-- Encode a `VcpuState`: the CPUID view, then the register blob. -/
def encVcpuState (v : VcpuState) : List Nat :=
  encListWith encCpuidEntry v.cpuid ++ encBlob v.regs

/-- Decode a `VcpuState`. -/
def decVcpuState (s : List Nat) : Option (VcpuState × List Nat) :=
  match decListWith decCpuidEntry s with
  | none => none
  | some (cs, s1) =>
    match decBlob s1 with
    | none => none
    | some (rg, s2) => some (⟨cs, rg⟩, s2)

/-- Encode a `DeviceStates` at schema version `sv`.  The balloon field exists
only from schema version 2 on: emitting a present balloon at version 1 is a
schema-incompatibility error; at version 1 the field is simply absent from the
stream. -/
def encDeviceStates (sv : Nat) (d : DeviceStates) :
    Except SnapshotCrateError (List Nat) :=
  if sv < 2 then
    match d.balloon_device with
    | some _ => .error .Versionize
    | none =>
      .ok (encListWith encBlob d.block_devices ++ encListWith encBlob d.net_devices
        ++ encOptWith encBlob d.vsock_device)
  else
    .ok (encListWith encBlob d.block_devices ++ encListWith encBlob d.net_devices
      ++ encOptWith encBlob d.vsock_device ++ encOptWith encBlob d.balloon_device)

/-- Decode a `DeviceStates` at schema version `sv`; at version 1 the balloon
field is missing from the stream and defaults to `none`. -/
def decDeviceStates (sv : Nat) (s : List Nat) : Option (DeviceStates × List Nat) :=
  match decListWith decBlob s with
  | none => none
  | some (bl, s1) =>
    match decListWith decBlob s1 with
    | none => none
    | some (nt, s2) =>
      match decOptWith decBlob s2 with
      | none => none
      | some (vs, s3) =>
        if sv < 2 then some (⟨bl, nt, vs, none⟩, s3)
        else
          match decOptWith decBlob s3 with
          | none => none
          | some (ba, s4) => some (⟨bl, nt, vs, ba⟩, s4)

/-- Modelled from the spec: the `Versionize` encoding of `MicrovmState`
derived for the struct in persist.rs — the five fields in declaration order
(`vm_info`, `memory_state`, `vm_state`, `vcpu_states`, `device_states`), each
encoded at the schema version the version map assigns it at the target data
version. -/
def MicrovmState.serialize (st : MicrovmState) (vmap : VersionMap)
    (target : Nat) : Except SnapshotCrateError (List Nat) :=
  match encDeviceStates (vmap.type_version target .deviceStates) st.device_states with
  | .error e => .error e
  | .ok dev =>
    .ok (encVmInfo st.vm_info ++ encGuestMemoryState st.memory_state
      ++ encBlob st.vm_state ++ encListWith encVcpuState st.vcpu_states ++ dev)

/-- Modelled from the spec: the `Versionize` decoding of `MicrovmState`,
reading the five fields in declaration order at the schema versions of the
target data version. -/
def MicrovmState.deserialize (s : List Nat) (vmap : VersionMap)
    (target : Nat) : Except SnapshotCrateError MicrovmState :=
  match decVmInfo s with
  | none => .error .Versionize
  | some (vi, s1) =>
    match decGuestMemoryState s1 with
    | none => .error .Versionize
    | some (ms, s2) =>
      match decBlob s2 with
      | none => .error .Versionize
      | some (vm, s3) =>
        match decListWith decVcpuState s3 with
        | none => .error .Versionize
        | some (vc, s4) =>
          match decDeviceStates (vmap.type_version target .deviceStates) s4 with
          | none => .error .Versionize
          | some (dv, _) => .ok ⟨vi, ms, vm, vc, dv⟩

/-- `validate_devices_number` from persist.rs: reject device counts above the
V0 ("0.23") limit. -/
def validate_devices_number (device_number : Nat) :
    Except CreateSnapshotError Unit :=
  if device_number > FC_V0_23_MAX_DEVICES then
    .error (.TooManyDevices device_number)
  else
    .ok ()

/-- Result of running code that may hit a Rust panic (an unchecked index). -/
inductive PanicOr (α : Type) where
  | panics
  | ok (val : α)
deriving DecidableEq, Repr

/-- The four bytes of a 32-bit register value, least significant first. -/
def bytesOfU32 (n : Nat) : List Nat :=
  [n % 256, n / 256 % 256, n / 65536 % 256, n / 16777216 % 256]

/-- Modelled from the spec: `get_vendor_id_from_cpuid` of the cpuid crate (not
under src/): locate leaf 0 in the CPUID view and read the 12-byte vendor
string out of ebx, edx, ecx. -/
def get_vendor_id_from_cpuid (cpuid : List CpuidEntry) :
    Except Unit (List Nat) :=
  match cpuid.find? (fun e => e.function == 0) with
  | none => .error ()
  | some e => .ok (bytesOfU32 e.ebx ++ bytesOfU32 e.edx ++ bytesOfU32 e.ecx)

/-- Rust `{:?}` rendering of a vendor id byte array, as interpolated into the
mismatch message. -/
def vendorRepr (v : List Nat) : String :=
  "[" ++ String.intercalate ", " (v.map toString) ++ "]"

/-- The detail string formatted by `validate_x86_64_cpu_vendor` on a vendor
mismatch (persist.rs lines 293-296). -/
def cpuVendorMismatchDetails (host snap : List Nat) : String :=
  "Host CPU vendor id: " ++ vendorRepr host ++
    ", Snapshot CPU vendor id: " ++ vendorRepr snap

/-- The tail of `validate_x86_64_cpu_vendor` once the host vendor id is in
hand and `vcpu_states[0]` has been read: extract the snapshot vendor id and
compare (persist.rs lines 286-303). -/
def vendor_compare (host_vendor_id : List Nat) (s0 : VcpuState) :
    Except LoadSnapshotError Unit :=
  match get_vendor_id_from_cpuid s0.cpuid with
  | .error _ =>
    .error (.CpuVendorMismatch "Failed to read vendor from CPUID.")
  | .ok snapshot_vendor_id =>
    if host_vendor_id ≠ snapshot_vendor_id then
      .error (.CpuVendorMismatch
        (cpuVendorMismatchDetails host_vendor_id snapshot_vendor_id))
    else
      .ok ()

/-- `validate_x86_64_cpu_vendor` from persist.rs.  The outcome of the host
CPUID query is a parameter; the unchecked `vcpu_states[0]` index is modelled
by the `panics` result on an empty vector. -/
def validate_x86_64_cpu_vendor (host_vendor : Except Unit (List Nat))
    (microvm_state : MicrovmState) :
    PanicOr (Except LoadSnapshotError Unit) :=
  match host_vendor with
  | .error _ =>
    .ok (.error (.CpuVendorMismatch "Failed to read vendor from CPUID."))
  | .ok host_vendor_id =>
    match microvm_state.vcpu_states with
    | [] => .panics
    | s0 :: _ => .ok (vendor_compare host_vendor_id s0)

/-- Lookup of a product tag in a product-version table, the behavior of
`HashMap::get` on the association-list representation. -/
def table_lookup (table : List (String × Nat)) (tag : String) : Option Nat :=
  (table.find? (fun p => p.1 == tag)).map Prod.snd

/-- Modelled from the spec: the `FC_VERSION_TO_SNAP_VERSION` table of
`version_map.rs` (not under src/): product tags "0.23" and "0.24" translate
to data versions 1 and 2. -/
def FC_VERSION_TO_SNAP_VERSION : List (String × Nat) :=
  [("0.23", 1), ("0.24", 2)]

/-- The inner arms of the version-resolution match: a tag that translated to
the V0 data version first validates the device count, any other translated
data version is taken as is. -/
def resolve_tagged (dv used_irqs : Nat) : Except CreateSnapshotError Nat :=
  if dv = FC_V0_23_SNAP_VERSION then
    match validate_devices_number used_irqs with
    | .error e => .error e
    | .ok _ => .ok FC_V0_23_SNAP_VERSION
  else
    .ok dv

/-- The data-version resolution block of `snapshot_state_to_file` (persist.rs
lines 227-238), with the product-version table and the device manager's
`used_irqs_count()` passed explicitly: an explicit tag is translated through
the table (unknown tags fail `InvalidVersion`, the V0 tag first validates the
device count); no tag selects the version map's latest version. -/
def resolve_snapshot_data_version (version : Option String)
    (table : List (String × Nat)) (version_map : VersionMap)
    (used_irqs : Nat) : Except CreateSnapshotError Nat :=
  match version with
  | some v =>
    match table_lookup table v with
    | some dv => resolve_tagged dv used_irqs
    | none => .error .InvalidVersion
  | none => .ok version_map.latest_version

/-- Modelled from the spec: the fixed magic token opening a snapshot file. -/
def SNAPSHOT_MAGIC : Nat := 205

/-- Modelled from the spec: the CRC token covering the versioned payload.  The
checksum algorithm is outside the specified core; a sum stands in for it, only
its presence and position in the framing matter here. -/
def crcOf (payload : List Nat) : Nat :=
  payload.foldl (fun a b => a + b) 0

/-- Modelled from the spec: the byte stream `Snapshot::save` produces — magic,
data version, versioned payload, CRC. -/
def snapshot_save_bytes (version_map : VersionMap) (target : Nat)
    (st : MicrovmState) : Except SnapshotCrateError (List Nat) :=
  match MicrovmState.serialize st version_map target with
  | .error e => .error e
  | .ok payload => .ok (SNAPSHOT_MAGIC :: target :: payload ++ [crcOf payload])

/-- Modelled from the spec: `Snapshot::load` — reads are bounded by the total
byte length passed by the caller; check the magic, read the data version,
decode the payload at that version. -/
def snapshot_load (bytes : List Nat) (len : Nat) (version_map : VersionMap) :
    Except SnapshotCrateError MicrovmState :=
  match bytes.take len with
  | [] => .error (.IoFail 0)
  | m :: rest =>
    if m ≠ SNAPSHOT_MAGIC then .error (.InvalidMagic m)
    else
      match rest with
      | [] => .error (.IoFail 0)
      | v :: body => MicrovmState.deserialize body version_map v

/-- One observable file operation of the snapshot-creation pipeline. -/
inductive FileEvent where
  | openMemFileTruncate
  | setMemFileLength (bytes : Nat)
  | dumpFullMemory
  | dumpDirtyMemory
  | closeMemFile
  | openStateFile
  | writeStateFile (bytes : List Nat)
deriving DecidableEq, Repr

/-- Events touching the memory backing file. -/
def FileEvent.isMemEvent : FileEvent → Bool
  | .openMemFileTruncate | .setMemFileLength _ | .dumpFullMemory
  | .dumpDirtyMemory | .closeMemFile => true
  | _ => false

/-- Events touching the snapshot state file. -/
def FileEvent.isStateEvent : FileEvent → Bool
  | .openStateFile | .writeStateFile _ => true
  | _ => false

/-- `SnapshotType` from `vmm_config::snapshot`. -/
inductive SnapshotType where
  | Full
  | Diff
deriving DecidableEq, Repr

/-- `CreateSnapshotParams` from `vmm_config::snapshot`. -/
structure CreateSnapshotParams where
  mem_file_path : String
  snapshot_path : String
  snapshot_type : SnapshotType
  version : Option String
deriving DecidableEq, Repr

/-- The slice of the `Vmm` collaborator the persistence core consults, with
the outcome of each fallible host interaction recorded as data. -/
structure Vmm where
  save_state_result : Except MicrovmStateError MicrovmState
  mem_size_mib : Nat
  dirty_bitmap_ok : Bool
  dump_result : Except MemError Unit
  dump_dirty_result : Except MemError Unit
  used_irqs_count : Nat

/-- Outcomes of the file-system calls issued while creating a snapshot. -/
structure FsEnv where
  open_mem_file : Except IoError Unit
  set_len_result : Except IoError Unit
  open_state_file : Except IoError Unit

/-- `snapshot_memory_to_file` from persist.rs: open the memory backing file
with write+create+truncate, set its length to `mem_size_mib` MiB, then dump
all of guest memory (Full) or the dirty pages (Diff, after fetching the dirty
bitmap).  Returns the result together with the trace of file operations; the
file closes (drops) when the function returns. -/
def snapshot_memory_to_file (vmm : Vmm) (env : FsEnv)
    (snapshot_type : SnapshotType) :
    Except CreateSnapshotError Unit × List FileEvent :=
  match env.open_mem_file with
  | .error e => (.error (.MemoryBackingFile e), [])
  | .ok _ =>
    let mem_bytes := vmm.mem_size_mib * 1024 * 1024
    match env.set_len_result with
    | .error e =>
      (.error (.MemoryBackingFile e),
        [.openMemFileTruncate, .closeMemFile])
    | .ok _ =>
      match snapshot_type with
      | .Diff =>
        if vmm.dirty_bitmap_ok then
          match vmm.dump_dirty_result with
          | .error e =>
            (.error (.Memory e),
              [.openMemFileTruncate, .setMemFileLength mem_bytes,
                .dumpDirtyMemory, .closeMemFile])
          | .ok _ =>
            (.ok (),
              [.openMemFileTruncate, .setMemFileLength mem_bytes,
                .dumpDirtyMemory, .closeMemFile])
        else
          (.error .DirtyBitmap,
            [.openMemFileTruncate, .setMemFileLength mem_bytes, .closeMemFile])
      | .Full =>
        match vmm.dump_result with
        | .error e =>
          (.error (.Memory e),
            [.openMemFileTruncate, .setMemFileLength mem_bytes,
              .dumpFullMemory, .closeMemFile])
        | .ok _ =>
          (.ok (),
            [.openMemFileTruncate, .setMemFileLength mem_bytes,
              .dumpFullMemory, .closeMemFile])

/-- The final arm of `snapshot_state_to_file`: serialize into the already
opened state file at the resolved data version. -/
def write_state_bytes (version_map : VersionMap) (dv : Nat)
    (microvm_state : MicrovmState) :
    Except CreateSnapshotError Unit × List FileEvent :=
  match snapshot_save_bytes version_map dv microvm_state with
  | .error e => (.error (.SerializeMicrovmState e), [.openStateFile])
  | .ok bytes => (.ok (), [.openStateFile, .writeStateFile bytes])

/-- The remainder of `snapshot_state_to_file` after the state file has been
opened: resolve the data version, then serialize into the file. -/
def write_resolved_state (microvm_state : MicrovmState)
    (version : Option String) (table : List (String × Nat))
    (version_map : VersionMap) (used_irqs : Nat) :
    Except CreateSnapshotError Unit × List FileEvent :=
  match resolve_snapshot_data_version version table version_map used_irqs with
  | .error e => (.error e, [.openStateFile])
  | .ok dv => write_state_bytes version_map dv microvm_state

/-- `snapshot_state_to_file` from persist.rs: open the state file with
create+write (no truncate), resolve the target data version, then serialize
the state into the file.  Returns the result and the trace of file
operations. -/
def snapshot_state_to_file (microvm_state : MicrovmState) (env : FsEnv)
    (version : Option String) (table : List (String × Nat))
    (version_map : VersionMap) (used_irqs : Nat) :
    Except CreateSnapshotError Unit × List FileEvent :=
  match env.open_state_file with
  | .error e => (.error (.SnapshotBackingFile e), [])
  | .ok _ =>
    write_resolved_state microvm_state version table version_map used_irqs

/-- `create_snapshot` from persist.rs: save the microVM state, write the
memory backing file, then write the snapshot state file. -/
def create_snapshot (vmm : Vmm) (env : FsEnv)
    (params : CreateSnapshotParams) (table : List (String × Nat))
    (version_map : VersionMap) :
    Except CreateSnapshotError Unit × List FileEvent :=
  match vmm.save_state_result with
  | .error e => (.error (.MicrovmState e), [])
  | .ok microvm_state =>
    match (snapshot_memory_to_file vmm env params.snapshot_type).1 with
    | .error e => (.error e, (snapshot_memory_to_file vmm env params.snapshot_type).2)
    | .ok _ =>
      ((snapshot_state_to_file microvm_state env params.version table
          version_map vmm.used_irqs_count).1,
        (snapshot_memory_to_file vmm env params.snapshot_type).2 ++
          (snapshot_state_to_file microvm_state env params.version table
            version_map vmm.used_irqs_count).2)

/-- Writing a byte sequence from offset 0 into a file that was opened without
truncation: the new bytes overwrite the prefix, bytes past the written length
survive. -/
def write_from_start (old new : List Nat) : List Nat :=
  new ++ old.drop new.length

/-- Replay the state-file events over the file's prior content: opening with
create+write and no truncate leaves the content in place; a write overwrites
from the start of the file. -/
def replay_state_file (old : List Nat) : List FileEvent → List Nat
  | [] => old
  | .writeStateFile b :: evs => replay_state_file (write_from_start old b) evs
  | _ :: evs => replay_state_file old evs

/-- Outcomes of the host interactions of `snapshot_state_from_file`. -/
structure StateFileEnv where
  open_result : Except IoError Unit
  metadata_len : Except IoError Nat
  contents : List Nat

/-- `snapshot_state_from_file` from persist.rs: open the snapshot file, stat
it for its total byte length, and hand both to the snapshot loader. -/
def snapshot_state_from_file (env : StateFileEnv) (version_map : VersionMap) :
    Except LoadSnapshotError MicrovmState :=
  match env.open_result with
  | .error e => .error (.SnapshotBackingFile e)
  | .ok _ =>
    match env.metadata_len with
    | .error e => .error (.SnapshotBackingFileMetadata e)
    | .ok snapshot_len =>
      match snapshot_load env.contents snapshot_len version_map with
      | .error e => .error (.DeserializeMicrovmState e)
      | .ok st => .ok st

/-! ## Concrete instances used as evaluation witnesses -/

/-- A CPUID leaf-0 entry whose ebx, edx, ecx registers spell the
"GenuineIntel" vendor string. -/
def intelLeaf0 : CpuidEntry := ⟨0, 13, 1970169159, 1818588270, 1231384169⟩

/-- The 12 vendor bytes encoded by `intelLeaf0` ("GenuineIntel"). -/
def intelVendor : List Nat :=
  [71, 101, 110, 117, 105, 110, 101, 73, 110, 116, 101, 108]

/-- A different vendor id ("AuthenticAMD" as bytes). -/
def amdVendor : List Nat :=
  [65, 117, 116, 104, 101, 110, 116, 105, 99, 65, 77, 68]

/-- A vcpu state whose CPUID view holds `intelLeaf0`. -/
def sampleVcpu : VcpuState := ⟨[intelLeaf0], [0, 1]⟩

/-- Device states with one block, one net, one vsock and no balloon. -/
def sampleDevices : DeviceStates := ⟨[[1]], [[2]], some [3], none⟩

/-- A small but fully populated microVM state. -/
def sampleState : MicrovmState :=
  ⟨⟨128⟩, ⟨[⟨0, 134217728, 0⟩]⟩, [7, 7], [sampleVcpu], sampleDevices⟩

/-- Device states that additionally carry a balloon device. -/
def balloonDevices : DeviceStates := ⟨[[1]], [[2]], some [3], some [4]⟩

/-- `sampleState` with a balloon device attached. -/
def balloonState : MicrovmState :=
  { sampleState with device_states := balloonDevices }

/-- A microVM state whose vcpu-state vector is empty. -/
def noVcpuState : MicrovmState := ⟨⟨1⟩, ⟨[]⟩, [], [], ⟨[], [], none, none⟩⟩

/-- A version map whose chain stops at data version 1. -/
def vmapV1 : VersionMap := ⟨1, fun _ _ => 1⟩

/-- A two-step version map declaring DeviceStates at schema version 2 from
data version 2 on. -/
def vmapV2 : VersionMap := ⟨2, fun d _ => if 2 ≤ d then 2 else 1⟩

/-- The versioned payload of `balloonState` at data version 2. -/
def exampleBytes : List Nat :=
  match MicrovmState.serialize balloonState vmapV2 2 with
  | .ok out => out
  | .error _ => []

/-- The framed state-file bytes of `sampleState` at data version 2. -/
def exampleSaveBytes : List Nat :=
  match snapshot_save_bytes vmapV2 2 sampleState with
  | .ok out => out
  | .error _ => []

/-- A pre-existing state file three bytes longer than the new encoding. -/
def staleStateFile : List Nat := exampleSaveBytes ++ [9, 9, 9]

/-- All file-system calls succeed. -/
def fsAllOk : FsEnv := ⟨.ok (), .ok (), .ok ()⟩

/-- A VMM with 12 in-use IRQs whose host interactions all succeed. -/
def vmm12 : Vmm := ⟨.ok sampleState, 128, true, .ok (), .ok (), 12⟩

/-- A VMM whose state save fails. -/
def vmmSaveFails : Vmm := ⟨.error .InvalidInput, 128, true, .ok (), .ok (), 3⟩

/-- Create-snapshot parameters: full snapshot, no explicit version tag. -/
def paramsNoneFull : CreateSnapshotParams := ⟨"mem", "snap", .Full, none⟩

/-- Create-snapshot parameters requesting the "0.23" product version. -/
def paramsV023Full : CreateSnapshotParams := ⟨"mem", "snap", .Full, some "0.23"⟩

/-- A state-file environment over an empty file of stat length 0. -/
def stateEnvEmpty : StateFileEnv := ⟨.ok (), .ok 0, []⟩

/-! ## Round-trip lemmas for the versioned serializer -/

theorem decNat_encNat (n : Nat) (rest : List Nat) :
    decNat (encNat n ++ rest) = some (n, rest) := rfl

theorem decCount_encBody {α : Type} (enc : α → List Nat)
    (dec : List Nat → Option (α × List Nat))
    (h : ∀ a rest, dec (enc a ++ rest) = some (a, rest)) :
    ∀ (xs : List α) (rest : List Nat),
      decCount dec xs.length (xs.foldr (fun a acc => enc a ++ acc) [] ++ rest) =
        some (xs, rest) := by
  intro xs
  induction xs with
  | nil => intro rest; simp [decCount]
  | cons a as ih =>
    intro rest
    simp only [List.foldr_cons, List.length_cons, List.append_assoc]
    simp only [decCount, h a, ih rest]

theorem decListWith_encListWith {α : Type} (enc : α → List Nat)
    (dec : List Nat → Option (α × List Nat))
    (h : ∀ a rest, dec (enc a ++ rest) = some (a, rest))
    (xs : List α) (rest : List Nat) :
    decListWith dec (encListWith enc xs ++ rest) = some (xs, rest) := by
  simp only [encListWith, List.cons_append, decListWith]
  exact decCount_encBody enc dec h xs rest

theorem decOptWith_encOptWith {α : Type} (enc : α → List Nat)
    (dec : List Nat → Option (α × List Nat))
    (h : ∀ a rest, dec (enc a ++ rest) = some (a, rest))
    (x : Option α) (rest : List Nat) :
    decOptWith dec (encOptWith enc x ++ rest) = some (x, rest) := by
  cases x with
  | none => simp [encOptWith, decOptWith]
  | some a => simp [encOptWith, decOptWith, h a]

theorem decBlob_encBlob (b : List Nat) (rest : List Nat) :
    decBlob (encBlob b ++ rest) = some (b, rest) :=
  decListWith_encListWith encNat decNat decNat_encNat b rest

theorem decVmInfo_encVmInfo (v : VmInfo) (rest : List Nat) :
    decVmInfo (encVmInfo v ++ rest) = some (v, rest) := rfl

theorem decRegion_encRegion (r : GuestMemoryRegionState) (rest : List Nat) :
    decRegion (encRegion r ++ rest) = some (r, rest) := rfl

theorem decGuestMemoryState_encGuestMemoryState (m : GuestMemoryState)
    (rest : List Nat) :
    decGuestMemoryState (encGuestMemoryState m ++ rest) = some (m, rest) := by
  simp [encGuestMemoryState, decGuestMemoryState,
    decListWith_encListWith encRegion decRegion decRegion_encRegion]

theorem decCpuidEntry_encCpuidEntry (e : CpuidEntry) (rest : List Nat) :
    decCpuidEntry (encCpuidEntry e ++ rest) = some (e, rest) := rfl

theorem decVcpuState_encVcpuState (v : VcpuState) (rest : List Nat) :
    decVcpuState (encVcpuState v ++ rest) = some (v, rest) := by
  simp [encVcpuState, decVcpuState, List.append_assoc,
    decListWith_encListWith encCpuidEntry decCpuidEntry decCpuidEntry_encCpuidEntry,
    decBlob_encBlob]

theorem decDeviceStates_encDeviceStates (sv : Nat) (d : DeviceStates)
    (out rest : List Nat) (h : encDeviceStates sv d = .ok out) :
    decDeviceStates sv (out ++ rest) = some (d, rest) := by
  have hblob := decListWith_encListWith encBlob decBlob decBlob_encBlob
  have hopt := decOptWith_encOptWith encBlob decBlob decBlob_encBlob
  by_cases hsv : sv < 2
  · cases hba : d.balloon_device with
    | some b => simp [encDeviceStates, hsv, hba] at h
    | none =>
      simp only [encDeviceStates, if_pos hsv, hba] at h
      cases h
      simp [decDeviceStates, List.append_assoc, hblob, hopt, if_pos hsv, ← hba]
  · simp only [encDeviceStates, if_neg hsv] at h
    cases h
    simp [decDeviceStates, List.append_assoc, hblob, hopt, if_neg hsv]

theorem deserialize_serialize (st : MicrovmState) (vmap : VersionMap)
    (target : Nat) (out : List Nat)
    (h : MicrovmState.serialize st vmap target = .ok out) :
    MicrovmState.deserialize out vmap target = .ok st := by
  unfold MicrovmState.serialize at h
  cases hdev : encDeviceStates (vmap.type_version target .deviceStates) st.device_states with
  | error e => rw [hdev] at h; exact absurd h (by simp)
  | ok dev =>
    rw [hdev] at h
    cases h
    have hdec := decDeviceStates_encDeviceStates
      (vmap.type_version target .deviceStates) st.device_states dev [] hdev
    rw [List.append_nil] at hdec
    simp only [MicrovmState.deserialize, List.append_assoc, decVmInfo_encVmInfo,
      decGuestMemoryState_encGuestMemoryState, decBlob_encBlob,
      decListWith_encListWith encVcpuState decVcpuState decVcpuState_encVcpuState,
      hdec]

/-! ## Helper lemmas for the vendor check -/

theorem validate_cpu_vendor_cons (hv : List Nat) (M : MicrovmState)
    (s0 : VcpuState) (tl : List VcpuState) (h : M.vcpu_states = s0 :: tl) :
    validate_x86_64_cpu_vendor (.ok hv) M = .ok (vendor_compare hv s0) := by
  unfold validate_x86_64_cpu_vendor
  rw [h]

theorem vendor_compare_of_ok (hv sv : List Nat) (s0 : VcpuState)
    (hget : get_vendor_id_from_cpuid s0.cpuid = .ok sv) :
    vendor_compare hv s0 =
      if hv ≠ sv then
        .error (.CpuVendorMismatch (cpuVendorMismatchDetails hv sv))
      else
        .ok () := by
  unfold vendor_compare
  rw [hget]

theorem vendor_compare_of_err (hv : List Nat) (s0 : VcpuState)
    (hget : get_vendor_id_from_cpuid s0.cpuid = .error ()) :
    vendor_compare hv s0 =
      .error (.CpuVendorMismatch "Failed to read vendor from CPUID.") := by
  unfold vendor_compare
  rw [hget]

theorem cpuVendorMismatchDetails_contains (hv sv : List Nat) :
    ∃ x y z, cpuVendorMismatchDetails hv sv =
      x ++ vendorRepr hv ++ (y ++ (vendorRepr sv ++ z)) := by
  refine ⟨"Host CPU vendor id: ", ", Snapshot CPU vendor id: ", "", ?_⟩
  unfold cpuVendorMismatchDetails
  rw [String.append_empty, String.append_assoc]

/-! ## Helper lemmas for the snapshot-creation pipeline -/

theorem validate_devices_number_le (n : Nat)
    (h : n ≤ FC_V0_23_MAX_DEVICES) : validate_devices_number n = .ok () := by
  unfold validate_devices_number
  rw [if_neg (by omega)]

theorem validate_devices_number_gt (n : Nat)
    (h : n > FC_V0_23_MAX_DEVICES) :
    validate_devices_number n = .error (.TooManyDevices n) := by
  unfold validate_devices_number
  rw [if_pos h]

theorem resolve_some (tag : String) (table : List (String × Nat))
    (vmap : VersionMap) (used : Nat) :
    resolve_snapshot_data_version (some tag) table vmap used =
      match table_lookup table tag with
      | some dv => resolve_tagged dv used
      | none => .error .InvalidVersion := rfl

theorem resolve_tagged_not_v0 (dv used : Nat)
    (h : dv ≠ FC_V0_23_SNAP_VERSION) : resolve_tagged dv used = .ok dv := by
  unfold resolve_tagged
  rw [if_neg h]

theorem resolve_tagged_v0_le (used : Nat) (h : used ≤ FC_V0_23_MAX_DEVICES) :
    resolve_tagged FC_V0_23_SNAP_VERSION used = .ok FC_V0_23_SNAP_VERSION := by
  unfold resolve_tagged
  rw [if_pos rfl, validate_devices_number_le used h]

theorem resolve_tagged_v0_gt (used : Nat) (h : used > FC_V0_23_MAX_DEVICES) :
    resolve_tagged FC_V0_23_SNAP_VERSION used =
      .error (.TooManyDevices used) := by
  unfold resolve_tagged
  rw [if_pos rfl, validate_devices_number_gt used h]

theorem create_snapshot_of_save_err (vmm : Vmm) (env : FsEnv)
    (params : CreateSnapshotParams) (table : List (String × Nat))
    (vmap : VersionMap) (e : MicrovmStateError)
    (h : vmm.save_state_result = .error e) :
    create_snapshot vmm env params table vmap =
      (.error (.MicrovmState e), []) := by
  unfold create_snapshot
  rw [h]

theorem create_snapshot_of_save_ok (vmm : Vmm) (env : FsEnv)
    (params : CreateSnapshotParams) (table : List (String × Nat))
    (vmap : VersionMap) (st : MicrovmState)
    (h : vmm.save_state_result = .ok st) :
    create_snapshot vmm env params table vmap =
      match (snapshot_memory_to_file vmm env params.snapshot_type).1 with
      | .error e =>
        (.error e, (snapshot_memory_to_file vmm env params.snapshot_type).2)
      | .ok _ =>
        ((snapshot_state_to_file st env params.version table
            vmap vmm.used_irqs_count).1,
          (snapshot_memory_to_file vmm env params.snapshot_type).2 ++
            (snapshot_state_to_file st env params.version table
              vmap vmm.used_irqs_count).2) := by
  unfold create_snapshot
  rw [h]

theorem snapshot_state_to_file_of_open_ok (st : MicrovmState) (env : FsEnv)
    (version : Option String) (table : List (String × Nat))
    (vmap : VersionMap) (used : Nat) (h : env.open_state_file = .ok ()) :
    snapshot_state_to_file st env version table vmap used =
      write_resolved_state st version table vmap used := by
  unfold snapshot_state_to_file
  rw [h]

theorem write_resolved_state_of_resolve (st : MicrovmState)
    (version : Option String) (table : List (String × Nat))
    (vmap : VersionMap) (used dv : Nat)
    (h : resolve_snapshot_data_version version table vmap used = .ok dv) :
    write_resolved_state st version table vmap used =
      write_state_bytes vmap dv st := by
  unfold write_resolved_state
  rw [h]

theorem write_resolved_state_of_resolve_err (st : MicrovmState)
    (version : Option String) (table : List (String × Nat))
    (vmap : VersionMap) (used : Nat) (e : CreateSnapshotError)
    (h : resolve_snapshot_data_version version table vmap used = .error e) :
    write_resolved_state st version table vmap used =
      (.error e, [.openStateFile]) := by
  unfold write_resolved_state
  rw [h]

theorem write_state_bytes_of_save (vmap : VersionMap) (dv : Nat)
    (st : MicrovmState) (bytes : List Nat)
    (h : snapshot_save_bytes vmap dv st = .ok bytes) :
    write_state_bytes vmap dv st =
      (.ok (), [.openStateFile, .writeStateFile bytes]) := by
  unfold write_state_bytes
  rw [h]

theorem snapshot_memory_to_file_no_toomany (vmm : Vmm) (env : FsEnv)
    (ty : SnapshotType) (n : Nat) :
    (snapshot_memory_to_file vmm env ty).1 ≠ .error (.TooManyDevices n) := by
  rcases env with ⟨om, sl, os⟩
  rcases vmm with ⟨ss, mib, db, dr, ddr, irqs⟩
  cases om <;> cases sl <;> cases ty <;> cases db <;> cases dr <;> cases ddr <;>
    simp [snapshot_memory_to_file]

theorem write_state_bytes_no_toomany (vmap : VersionMap) (dv : Nat)
    (st : MicrovmState) (n : Nat) :
    (write_state_bytes vmap dv st).1 ≠ .error (.TooManyDevices n) := by
  unfold write_state_bytes
  cases snapshot_save_bytes vmap dv st <;> simp

theorem snapshot_memory_to_file_events_mem (vmm : Vmm) (env : FsEnv)
    (ty : SnapshotType) :
    ∀ ev ∈ (snapshot_memory_to_file vmm env ty).2, ev.isMemEvent = true := by
  rcases env with ⟨om, sl, os⟩
  rcases vmm with ⟨ss, mib, db, dr, ddr, irqs⟩
  cases om <;> cases sl <;> cases ty <;> cases db <;> cases dr <;> cases ddr <;>
    simp [snapshot_memory_to_file, FileEvent.isMemEvent]

theorem snapshot_memory_to_file_ok_close (vmm : Vmm) (env : FsEnv)
    (ty : SnapshotType)
    (h : (snapshot_memory_to_file vmm env ty).1 = .ok ()) :
    FileEvent.closeMemFile ∈ (snapshot_memory_to_file vmm env ty).2 := by
  rcases env with ⟨om, sl, os⟩
  rcases vmm with ⟨ss, mib, db, dr, ddr, irqs⟩
  cases om <;> cases sl <;> cases ty <;> cases db <;> cases dr <;> cases ddr <;>
    simp_all [snapshot_memory_to_file]

theorem snapshot_state_to_file_events_state (st : MicrovmState) (env : FsEnv)
    (version : Option String) (table : List (String × Nat))
    (vmap : VersionMap) (used : Nat) :
    ∀ ev ∈ (snapshot_state_to_file st env version table vmap used).2,
      ev.isStateEvent = true := by
  cases ho : env.open_state_file with
  | error e =>
    have hrw : snapshot_state_to_file st env version table vmap used =
        (.error (.SnapshotBackingFile e), []) := by
      unfold snapshot_state_to_file
      rw [ho]
    rw [hrw]
    simp
  | ok u =>
    rw [snapshot_state_to_file_of_open_ok st env version table vmap used ho]
    cases hres : resolve_snapshot_data_version version table vmap used with
    | error e =>
      rw [write_resolved_state_of_resolve_err st version table vmap used e
        hres]
      simp [FileEvent.isStateEvent]
    | ok dv =>
      rw [write_resolved_state_of_resolve st version table vmap used dv hres]
      cases hsb : snapshot_save_bytes vmap dv st with
      | error e =>
        have hrw : write_state_bytes vmap dv st =
            (.error (.SerializeMicrovmState e), [.openStateFile]) := by
          unfold write_state_bytes
          rw [hsb]
        rw [hrw]
        simp [FileEvent.isStateEvent]
      | ok bytes =>
        rw [write_state_bytes_of_save vmap dv st bytes hsb]
        simp [FileEvent.isStateEvent]

/-! ## Claim theorems -/

/-- Claim C7: at the V0 ("0.23") data version, `validate_devices_number`
accepts every device count `n ≤ FC_V0_23_MAX_DEVICES` (with
`FC_V0_23_MAX_DEVICES = FC_V0_23_IRQ_NUMBER - IRQ_BASE`, the 16-wide IRQ
window) and returns `TooManyDevices n` for every `n` above the limit; in
particular the limit itself is accepted and limit + 1 is rejected. -/
theorem validate_devices_number_boundary :
    (∀ n, n ≤ FC_V0_23_MAX_DEVICES → validate_devices_number n = .ok ()) ∧
    (∀ n, n > FC_V0_23_MAX_DEVICES →
      validate_devices_number n = .error (.TooManyDevices n)) ∧
    FC_V0_23_MAX_DEVICES = FC_V0_23_IRQ_NUMBER - IRQ_BASE ∧
    validate_devices_number FC_V0_23_MAX_DEVICES = .ok () ∧
    validate_devices_number (FC_V0_23_MAX_DEVICES + 1) =
      .error (.TooManyDevices (FC_V0_23_MAX_DEVICES + 1)) := by
  refine ⟨?_, ?_, rfl, rfl, rfl⟩
  · intro n h
    unfold validate_devices_number
    rw [if_neg (by omega)]
  · intro n h
    unfold validate_devices_number
    rw [if_pos h]

theorem validate_devices_number_boundary_witness :
    validate_devices_number 11 = .ok () ∧
    validate_devices_number 12 = .error (.TooManyDevices 12) :=
  ⟨validate_devices_number_boundary.1 11 (by decide),
    validate_devices_number_boundary.2.1 12 (by decide)⟩

/-- Claim C4: for every MicrovmState and every data version at which it is
representable — i.e. at which the versioned serializer succeeds — deserializing
the serialization with the same version map yields the original state. -/
theorem microvm_serialize_round_trip (st : MicrovmState) (vmap : VersionMap)
    (target : Nat) (out : List Nat)
    (h : MicrovmState.serialize st vmap target = .ok out) :
    MicrovmState.deserialize out vmap target = .ok st :=
  deserialize_serialize st vmap target out h

theorem microvm_serialize_round_trip_witness :
    MicrovmState.serialize balloonState vmapV2 2 = .ok exampleBytes ∧
    MicrovmState.deserialize exampleBytes vmapV2 2 = .ok balloonState :=
  ⟨rfl, microvm_serialize_round_trip balloonState vmapV2 2 exampleBytes rfl⟩

/-- Claim C2: for a snapshot with at least one vcpu state,
`validate_x86_64_cpu_vendor` returns Ok exactly when the host vendor id and
the vendor id extracted from `vcpu_states[0].cpuid` both read successfully and
are equal; a failed extraction on either side yields `CpuVendorMismatch` with
the fixed "Failed to read vendor from CPUID." message, and differing vendor
ids yield `CpuVendorMismatch` whose detail string contains both observed
vendor ids. -/
theorem validate_cpu_vendor_spec (host : Except Unit (List Nat))
    (M : MicrovmState) (s0 : VcpuState) (tl : List VcpuState)
    (h : M.vcpu_states = s0 :: tl) :
    (validate_x86_64_cpu_vendor host M = .ok (.ok ()) ↔
      ∃ hv, host = .ok hv ∧ get_vendor_id_from_cpuid s0.cpuid = .ok hv) ∧
    (host = .error () →
      validate_x86_64_cpu_vendor host M =
        .ok (.error (.CpuVendorMismatch "Failed to read vendor from CPUID."))) ∧
    (∀ hv, host = .ok hv → get_vendor_id_from_cpuid s0.cpuid = .error () →
      validate_x86_64_cpu_vendor host M =
        .ok (.error (.CpuVendorMismatch "Failed to read vendor from CPUID."))) ∧
    (∀ hv sv, host = .ok hv → get_vendor_id_from_cpuid s0.cpuid = .ok sv →
      hv ≠ sv →
      validate_x86_64_cpu_vendor host M =
        .ok (.error (.CpuVendorMismatch (cpuVendorMismatchDetails hv sv))) ∧
      ∃ x y z, cpuVendorMismatchDetails hv sv =
        x ++ vendorRepr hv ++ (y ++ (vendorRepr sv ++ z))) := by
  refine ⟨⟨?_, ?_⟩, ?_, ?_, ?_⟩
  · intro hok
    cases hhost : host with
    | error u => rw [hhost] at hok; simp [validate_x86_64_cpu_vendor] at hok
    | ok hv =>
      rw [hhost, validate_cpu_vendor_cons hv M s0 tl h] at hok
      cases hget : get_vendor_id_from_cpuid s0.cpuid with
      | error u =>
        rw [vendor_compare_of_err hv s0 hget] at hok
        simp at hok
      | ok sv =>
        rw [vendor_compare_of_ok hv sv s0 hget] at hok
        by_cases hne : hv ≠ sv
        · rw [if_pos hne] at hok; simp at hok
        · push_neg at hne
          exact ⟨sv, by rw [hne], rfl⟩
  · rintro ⟨hv, hhost, hget⟩
    rw [hhost, validate_cpu_vendor_cons hv M s0 tl h,
      vendor_compare_of_ok hv hv s0 hget]
    simp
  · intro hhost
    subst hhost
    rfl
  · intro hv hhost hget
    rw [hhost, validate_cpu_vendor_cons hv M s0 tl h,
      vendor_compare_of_err hv s0 hget]
  · intro hv sv hhost hget hne
    refine ⟨?_, cpuVendorMismatchDetails_contains hv sv⟩
    rw [hhost, validate_cpu_vendor_cons hv M s0 tl h,
      vendor_compare_of_ok hv sv s0 hget, if_pos hne]

theorem validate_cpu_vendor_spec_witness :
    validate_x86_64_cpu_vendor (.ok intelVendor) sampleState = .ok (.ok ()) ∧
    validate_x86_64_cpu_vendor (.ok amdVendor) sampleState =
      .ok (.error (.CpuVendorMismatch
        (cpuVendorMismatchDetails amdVendor intelVendor))) := by
  constructor
  · exact (validate_cpu_vendor_spec (.ok intelVendor) sampleState sampleVcpu []
      rfl).1.mpr ⟨intelVendor, rfl, rfl⟩
  · exact ((validate_cpu_vendor_spec (.ok amdVendor) sampleState sampleVcpu []
      rfl).2.2.2 amdVendor intelVendor rfl rfl (by decide)).1

/-- Claim C9: `validate_x86_64_cpu_vendor` indexes `vcpu_states[0]` without an
emptiness check: once the host vendor id has been read, every MicrovmState
with an empty `vcpu_states` vector makes the access panic rather than return
an error, while a non-empty vector never panics. -/
theorem validate_cpu_vendor_empty_panics (host : Except Unit (List Nat))
    (hv : List Nat) (M : MicrovmState) :
    (host = .ok hv → M.vcpu_states = [] →
      validate_x86_64_cpu_vendor host M = .panics) ∧
    (M.vcpu_states ≠ [] → validate_x86_64_cpu_vendor host M ≠ .panics) := by
  constructor
  · intro hhost hempty
    rw [hhost]
    unfold validate_x86_64_cpu_vendor
    rw [hempty]
  · intro hne
    cases hhost : host with
    | error u => simp [validate_x86_64_cpu_vendor]
    | ok v =>
      obtain ⟨s0, tl, hcons⟩ := List.exists_cons_of_ne_nil hne
      rw [validate_cpu_vendor_cons v M s0 tl hcons]
      simp

/-- Claim C3: during create_snapshot the target data version resolves as
follows — `params.version = none` selects the version map's latest version; a
tag present in the product-version table selects its mapped numeric data
version (provided the V0 device-count validation passes when the mapped
version is V0); a tag absent from the table fails with `InvalidVersion`. -/
theorem resolve_snapshot_data_version_spec (table : List (String × Nat))
    (vmap : VersionMap) (used : Nat) :
    (resolve_snapshot_data_version none table vmap used =
      .ok vmap.latest_version) ∧
    (∀ tag dv, table_lookup table tag = some dv →
      (dv = FC_V0_23_SNAP_VERSION → used ≤ FC_V0_23_MAX_DEVICES) →
      resolve_snapshot_data_version (some tag) table vmap used = .ok dv) ∧
    (∀ tag, table_lookup table tag = none →
      resolve_snapshot_data_version (some tag) table vmap used =
        .error .InvalidVersion) := by
  refine ⟨rfl, ?_, ?_⟩
  · intro tag dv hlook hdev
    rw [resolve_some, hlook]
    by_cases hdv : dv = FC_V0_23_SNAP_VERSION
    · subst hdv
      show resolve_tagged FC_V0_23_SNAP_VERSION used =
        .ok FC_V0_23_SNAP_VERSION
      exact resolve_tagged_v0_le used (hdev rfl)
    · exact resolve_tagged_not_v0 dv used hdv
  · intro tag hlook
    rw [resolve_some, hlook]

theorem resolve_snapshot_data_version_spec_witness :
    resolve_snapshot_data_version none FC_VERSION_TO_SNAP_VERSION vmapV2 3 =
      .ok 2 ∧
    resolve_snapshot_data_version (some "0.24") FC_VERSION_TO_SNAP_VERSION
      vmapV2 3 = .ok 2 ∧
    resolve_snapshot_data_version (some "9.99") FC_VERSION_TO_SNAP_VERSION
      vmapV2 3 = .error .InvalidVersion :=
  ⟨(resolve_snapshot_data_version_spec FC_VERSION_TO_SNAP_VERSION vmapV2 3).1,
    (resolve_snapshot_data_version_spec FC_VERSION_TO_SNAP_VERSION
      vmapV2 3).2.1 "0.24" 2 rfl (fun h => absurd h (by decide)),
    (resolve_snapshot_data_version_spec FC_VERSION_TO_SNAP_VERSION
      vmapV2 3).2.2 "9.99" rfl⟩

/-- Claim C1 counterexample: the device-count check does not fire when
`params.version` is `None`.  A VMM with 12 attached devices — above the V0
limit of 11 — snapshotted without a version tag over a version map whose
latest data version is the V0 data version itself succeeds instead of
returning `TooManyDevices 12`. -/
theorem create_snapshot_no_tag_skips_device_check :
    (create_snapshot vmm12 fsAllOk paramsNoneFull FC_VERSION_TO_SNAP_VERSION
      vmapV1).1 = .ok () ∧
    (create_snapshot vmm12 fsAllOk paramsNoneFull FC_VERSION_TO_SNAP_VERSION
      vmapV1).1 ≠ .error (.TooManyDevices 12) := by
  refine ⟨rfl, ?_⟩
  intro hcontra
  rw [show (create_snapshot vmm12 fsAllOk paramsNoneFull
    FC_VERSION_TO_SNAP_VERSION vmapV1).1 = .ok () from rfl] at hcontra
  exact Except.noConfusion hcontra

/-- Claim C1 amended: the device-count check fires exactly on the explicit-tag
path to the V0 data version — when `params.version` is a tag that the table
maps to `FC_V0_23_SNAP_VERSION` and more than `FC_V0_23_MAX_DEVICES` devices
are attached, `create_snapshot` returns `TooManyDevices n` with `n` the actual
device count; when `params.version` is `None` the check is skipped and
`TooManyDevices` is never returned, whatever the resolved (latest) version
is. -/
theorem create_snapshot_device_check_v0_only (vmm : Vmm) (env : FsEnv)
    (params : CreateSnapshotParams) (table : List (String × Nat))
    (vmap : VersionMap) :
    (∀ st tag, vmm.save_state_result = .ok st → params.version = some tag →
      table_lookup table tag = some FC_V0_23_SNAP_VERSION →
      vmm.used_irqs_count > FC_V0_23_MAX_DEVICES →
      (snapshot_memory_to_file vmm env params.snapshot_type).1 = .ok () →
      env.open_state_file = .ok () →
      (create_snapshot vmm env params table vmap).1 =
        .error (.TooManyDevices vmm.used_irqs_count)) ∧
    (params.version = none →
      ∀ n, (create_snapshot vmm env params table vmap).1 ≠
        .error (.TooManyDevices n)) := by
  constructor
  · intro st tag hsave hver hlook hgt hmem hopen
    rw [create_snapshot_of_save_ok vmm env params table vmap st hsave, hmem]
    have hres : resolve_snapshot_data_version params.version table vmap
        vmm.used_irqs_count = .error (.TooManyDevices vmm.used_irqs_count) := by
      rw [hver, resolve_some, hlook]
      exact resolve_tagged_v0_gt vmm.used_irqs_count hgt
    rw [snapshot_state_to_file_of_open_ok st env params.version table vmap
      vmm.used_irqs_count hopen,
      write_resolved_state_of_resolve_err st params.version table vmap
        vmm.used_irqs_count (.TooManyDevices vmm.used_irqs_count) hres]
  · intro hver n hcontra
    cases hsave : vmm.save_state_result with
    | error e =>
      have hrw : (create_snapshot vmm env params table vmap).1 =
          .error (.MicrovmState e) := by
        rw [create_snapshot_of_save_err vmm env params table vmap e hsave]
      rw [hrw] at hcontra
      simp at hcontra
    | ok st =>
      cases hmem : (snapshot_memory_to_file vmm env params.snapshot_type).1 with
      | error e =>
        have hrw : (create_snapshot vmm env params table vmap).1 = .error e := by
          rw [create_snapshot_of_save_ok vmm env params table vmap st hsave,
            hmem]
        rw [hrw] at hcontra
        exact snapshot_memory_to_file_no_toomany vmm env params.snapshot_type n
          (hmem.trans hcontra)
      | ok u =>
        have hrw : (create_snapshot vmm env params table vmap).1 =
            (snapshot_state_to_file st env params.version table vmap
              vmm.used_irqs_count).1 := by
          rw [create_snapshot_of_save_ok vmm env params table vmap st hsave,
            hmem]
        rw [hrw] at hcontra
        cases hopen : env.open_state_file with
        | error eo =>
          have hso : (snapshot_state_to_file st env params.version table vmap
              vmm.used_irqs_count).1 = .error (.SnapshotBackingFile eo) := by
            unfold snapshot_state_to_file
            rw [hopen]
          rw [hso] at hcontra
          simp at hcontra
        | ok uo =>
          rw [snapshot_state_to_file_of_open_ok st env params.version table
            vmap vmm.used_irqs_count hopen] at hcontra
          have hres : resolve_snapshot_data_version params.version table vmap
              vmm.used_irqs_count = .ok vmap.latest_version := by
            rw [hver]
            rfl
          rw [write_resolved_state_of_resolve st params.version table vmap
            vmm.used_irqs_count vmap.latest_version hres] at hcontra
          exact write_state_bytes_no_toomany vmap vmap.latest_version st n
            hcontra

theorem create_snapshot_device_check_v0_only_witness :
    (create_snapshot vmm12 fsAllOk paramsV023Full FC_VERSION_TO_SNAP_VERSION
      vmapV2).1 = .error (.TooManyDevices 12) :=
  (create_snapshot_device_check_v0_only vmm12 fsAllOk paramsV023Full
    FC_VERSION_TO_SNAP_VERSION vmapV2).1 sampleState "0.23" rfl rfl rfl
    (by decide) rfl rfl

theorem validate_cpu_vendor_empty_panics_witness :
    validate_x86_64_cpu_vendor (.ok intelVendor) noVcpuState = .panics ∧
    validate_x86_64_cpu_vendor (.ok intelVendor) sampleState ≠ .panics :=
  ⟨(validate_cpu_vendor_empty_panics (.ok intelVendor) intelVendor
      noVcpuState).1 rfl rfl,
    (validate_cpu_vendor_empty_panics (.ok intelVendor) intelVendor
      sampleState).2 (by decide)⟩

/-- Claim C5: `snapshot_memory_to_file` opens the memory file with truncate
and sets its length to `mem_size_mib * 2^20` bytes before any dump — every
trace containing a dump event is exactly open, set-length, dump, close; in
Diff mode an unavailable dirty bitmap fails with `DirtyBitmap` and nothing is
dumped, an available one leads to `dump_dirty`; in Full mode `dump` is
called; a dump error `e` is returned as `Memory e`. -/
theorem snapshot_memory_to_file_spec (vmm : Vmm) (env : FsEnv)
    (ty : SnapshotType) :
    (FileEvent.dumpFullMemory ∈ (snapshot_memory_to_file vmm env ty).2 →
      (snapshot_memory_to_file vmm env ty).2 =
        [.openMemFileTruncate,
          .setMemFileLength (vmm.mem_size_mib * 1024 * 1024),
          .dumpFullMemory, .closeMemFile]) ∧
    (FileEvent.dumpDirtyMemory ∈ (snapshot_memory_to_file vmm env ty).2 →
      (snapshot_memory_to_file vmm env ty).2 =
        [.openMemFileTruncate,
          .setMemFileLength (vmm.mem_size_mib * 1024 * 1024),
          .dumpDirtyMemory, .closeMemFile]) ∧
    (ty = .Diff → vmm.dirty_bitmap_ok = false →
      env.open_mem_file = .ok () → env.set_len_result = .ok () →
      (snapshot_memory_to_file vmm env ty).1 = .error .DirtyBitmap ∧
      FileEvent.dumpDirtyMemory ∉ (snapshot_memory_to_file vmm env ty).2 ∧
      FileEvent.dumpFullMemory ∉ (snapshot_memory_to_file vmm env ty).2) ∧
    (ty = .Diff → vmm.dirty_bitmap_ok = true →
      env.open_mem_file = .ok () → env.set_len_result = .ok () →
      FileEvent.dumpDirtyMemory ∈ (snapshot_memory_to_file vmm env ty).2 ∧
      (∀ e, vmm.dump_dirty_result = .error e →
        (snapshot_memory_to_file vmm env ty).1 = .error (.Memory e)) ∧
      (vmm.dump_dirty_result = .ok () →
        (snapshot_memory_to_file vmm env ty).1 = .ok ())) ∧
    (ty = .Full → env.open_mem_file = .ok () → env.set_len_result = .ok () →
      FileEvent.dumpFullMemory ∈ (snapshot_memory_to_file vmm env ty).2 ∧
      (∀ e, vmm.dump_result = .error e →
        (snapshot_memory_to_file vmm env ty).1 = .error (.Memory e)) ∧
      (vmm.dump_result = .ok () →
        (snapshot_memory_to_file vmm env ty).1 = .ok ())) := by
  rcases env with ⟨om, sl, os⟩
  rcases vmm with ⟨ss, mib, db, dr, ddr, irqs⟩
  cases om <;> cases sl <;> cases ty <;> cases db <;> cases dr <;> cases ddr <;>
    simp [snapshot_memory_to_file]

theorem snapshot_memory_to_file_spec_witness :
    FileEvent.dumpFullMemory ∈ (snapshot_memory_to_file vmm12 fsAllOk .Full).2 ∧
    (snapshot_memory_to_file vmm12 fsAllOk .Full).1 = .ok () ∧
    (snapshot_memory_to_file vmm12 fsAllOk .Full).2 =
      [.openMemFileTruncate, .setMemFileLength (128 * 1024 * 1024),
        .dumpFullMemory, .closeMemFile] := by
  obtain ⟨hmem, hall, hok⟩ :=
    (snapshot_memory_to_file_spec vmm12 fsAllOk .Full).2.2.2.2 rfl rfl rfl
  exact ⟨hmem, hok rfl,
    (snapshot_memory_to_file_spec vmm12 fsAllOk .Full).1 hmem⟩

/-- Claim C6: `create_snapshot` runs `save_state` first — a substate error is
returned as `MicrovmState e` before any file operation — and its file trace
splits into the memory-file operations (including the close) followed by the
state-file operations, with the memory file closed before any state-file
event happens. -/
theorem create_snapshot_ordering (vmm : Vmm) (env : FsEnv)
    (params : CreateSnapshotParams) (table : List (String × Nat))
    (vmap : VersionMap) :
    (∀ e, vmm.save_state_result = .error e →
      create_snapshot vmm env params table vmap =
        (.error (.MicrovmState e), [])) ∧
    (∃ a b, (create_snapshot vmm env params table vmap).2 = a ++ b ∧
      (∀ ev ∈ a, ev.isMemEvent = true) ∧
      (∀ ev ∈ b, ev.isStateEvent = true) ∧
      (b ≠ [] → FileEvent.closeMemFile ∈ a)) := by
  constructor
  · intro e h
    exact create_snapshot_of_save_err vmm env params table vmap e h
  · cases hsave : vmm.save_state_result with
    | error e =>
      refine ⟨[], [], ?_, by simp, by simp, by simp⟩
      rw [create_snapshot_of_save_err vmm env params table vmap e hsave]
      rfl
    | ok st =>
      cases hmem : (snapshot_memory_to_file vmm env params.snapshot_type).1 with
      | error e =>
        refine ⟨(snapshot_memory_to_file vmm env params.snapshot_type).2, [],
          ?_, snapshot_memory_to_file_events_mem vmm env params.snapshot_type,
          by simp, by simp⟩
        rw [create_snapshot_of_save_ok vmm env params table vmap st hsave,
          hmem]
        simp
      | ok u =>
        refine ⟨(snapshot_memory_to_file vmm env params.snapshot_type).2,
          (snapshot_state_to_file st env params.version table vmap
            vmm.used_irqs_count).2, ?_,
          snapshot_memory_to_file_events_mem vmm env params.snapshot_type,
          snapshot_state_to_file_events_state st env params.version table vmap
            vmm.used_irqs_count, ?_⟩
        · rw [create_snapshot_of_save_ok vmm env params table vmap st hsave,
            hmem]
        · intro _
          exact snapshot_memory_to_file_ok_close vmm env params.snapshot_type
            (by rw [hmem])

theorem create_snapshot_ordering_witness :
    create_snapshot vmmSaveFails fsAllOk paramsNoneFull
      FC_VERSION_TO_SNAP_VERSION vmapV1 =
      (.error (.MicrovmState .InvalidInput), []) :=
  (create_snapshot_ordering vmmSaveFails fsAllOk paramsNoneFull
    FC_VERSION_TO_SNAP_VERSION vmapV1).1 .InvalidInput rfl

/-- Claim C8: `snapshot_state_from_file` maps an open failure to
`SnapshotBackingFile`, a stat failure to `SnapshotBackingFileMetadata`, a
deserialization failure to `DeserializeMicrovmState`, and hands the loader
the file's total byte length as obtained from the stat. -/
theorem snapshot_state_from_file_spec (env : StateFileEnv)
    (vmap : VersionMap) :
    (∀ e, env.open_result = .error e →
      snapshot_state_from_file env vmap = .error (.SnapshotBackingFile e)) ∧
    (∀ e, env.open_result = .ok () → env.metadata_len = .error e →
      snapshot_state_from_file env vmap =
        .error (.SnapshotBackingFileMetadata e)) ∧
    (∀ len, env.open_result = .ok () → env.metadata_len = .ok len →
      snapshot_state_from_file env vmap =
        match snapshot_load env.contents len vmap with
        | .error e => .error (.DeserializeMicrovmState e)
        | .ok st => .ok st) := by
  refine ⟨?_, ?_, ?_⟩
  · intro e h
    unfold snapshot_state_from_file
    rw [h]
  · intro e ho hm
    unfold snapshot_state_from_file
    rw [ho, hm]
  · intro len ho hm
    unfold snapshot_state_from_file
    rw [ho, hm]

theorem snapshot_state_from_file_spec_witness :
    snapshot_state_from_file stateEnvEmpty vmapV2 =
      .error (.DeserializeMicrovmState (.IoFail 0)) :=
  (snapshot_state_from_file_spec stateEnvEmpty vmapV2).2.2 0 rfl rfl

/-- Claim C10: `snapshot_state_to_file` opens the state file with create and
write but no truncation, so over a pre-existing file at least as long as the
newly written encoding the write only overwrites the prefix: after a
successful run the bytes beyond the written length are the stale bytes of the
old content and the file length does not shrink. -/
theorem snapshot_state_to_file_keeps_stale_tail (st : MicrovmState)
    (env : FsEnv) (version : Option String) (table : List (String × Nat))
    (vmap : VersionMap) (used dv : Nat) (old b : List Nat)
    (hopen : env.open_state_file = .ok ())
    (hres : resolve_snapshot_data_version version table vmap used = .ok dv)
    (hsave : snapshot_save_bytes vmap dv st = .ok b)
    (hlong : b.length ≤ old.length) :
    (snapshot_state_to_file st env version table vmap used).1 = .ok () ∧
    replay_state_file old
        (snapshot_state_to_file st env version table vmap used).2 =
      b ++ old.drop b.length ∧
    (replay_state_file old
        (snapshot_state_to_file st env version table vmap used).2).drop
        b.length = old.drop b.length ∧
    (replay_state_file old
        (snapshot_state_to_file st env version table vmap used).2).length =
      old.length := by
  have hfull : snapshot_state_to_file st env version table vmap used =
      (.ok (), [.openStateFile, .writeStateFile b]) := by
    rw [snapshot_state_to_file_of_open_ok st env version table vmap used hopen,
      write_resolved_state_of_resolve st version table vmap used dv hres,
      write_state_bytes_of_save vmap dv st b hsave]
  rw [hfull]
  have hreplay : replay_state_file old [.openStateFile, .writeStateFile b] =
      b ++ old.drop b.length := by
    simp [replay_state_file, write_from_start]
  refine ⟨rfl, hreplay, ?_, ?_⟩
  · rw [hreplay, List.drop_left]
  · rw [hreplay]
    simp only [List.length_append, List.length_drop]
    omega

theorem snapshot_state_to_file_keeps_stale_tail_witness :
    (snapshot_state_to_file sampleState fsAllOk none
      FC_VERSION_TO_SNAP_VERSION vmapV2 3).1 = .ok () ∧
    (replay_state_file staleStateFile
        (snapshot_state_to_file sampleState fsAllOk none
          FC_VERSION_TO_SNAP_VERSION vmapV2 3).2).drop
      exampleSaveBytes.length = [9, 9, 9] := by
  have h := snapshot_state_to_file_keeps_stale_tail sampleState fsAllOk none
    FC_VERSION_TO_SNAP_VERSION vmapV2 3 2 staleStateFile exampleSaveBytes
    rfl rfl rfl (by decide)
  exact ⟨h.1, h.2.2.1.trans rfl⟩

end Persist
